import Mathlib

/-!
Shallow embedding of the solar-system visualization core
(src/src/components/ControlPanel.tsx, src/src/data/planetData.ts,
src/src/data/satelliteData.ts, and the galaxy particle generators).

The embedding models:
  - the per-frame orbital kinematics of planets and satellites,
  - the trail recorder (prepend and truncate via JS Array.slice),
  - the camera zoom controller (focus begin, eased interpolation),
  - the galaxy particle generators (spiral, elliptical, irregular).

Machine floating-point numbers are modelled by real numbers; the JS
Math.random stream is modelled by an explicit function from draw index
to a real number, consumed in the order the source draws.
-/

noncomputable section

/-- A three.js Vector3: three real components. -/
structure Vec3 where
  x : ℝ
  y : ℝ
  z : ℝ

/-- THREE.Vector3.lerpVectors a b t : componentwise a + (b - a) * t. -/
def Vec3.lerpVectors (a b : Vec3) (t : ℝ) : Vec3 :=
  ⟨a.x + (b.x - a.x) * t, a.y + (b.y - a.y) * t, a.z + (b.z - a.z) * t⟩

/-- THREE.Vector3.length. -/
def Vec3.len (v : Vec3) : ℝ :=
  Real.sqrt (v.x ^ 2 + v.y ^ 2 + v.z ^ 2)

/-- THREE.Vector3.distanceTo. -/
def Vec3.distanceTo (a b : Vec3) : ℝ :=
  Real.sqrt ((a.x - b.x) ^ 2 + (a.y - b.y) ^ 2 + (a.z - b.z) ^ 2)

/-- THREE.Vector3.normalize: divideScalar by the length, where a zero
length is replaced by 1 (three.js writes divideScalar(length or 1)). -/
def Vec3.normalize (v : Vec3) : Vec3 :=
  let l := if v.len = 0 then 1 else v.len
  ⟨v.x / l, v.y / l, v.z / l⟩

/-- A THREE.Color: rgb components. -/
structure Color where
  r : ℝ
  g : ℝ
  b : ℝ

/-- THREE.Color.lerp c e t : componentwise c + (e - c) * t. -/
def Color.lerp (c e : Color) (t : ℝ) : Color :=
  ⟨c.r + (e.r - c.r) * t, c.g + (e.g - c.g) * t, c.b + (e.b - c.b) * t⟩

/-- One row of the planetData table in ControlPanel.tsx (PlanetInfo
interface): the color string is kept as the source hex literal. -/
structure PlanetInfo where
  id : String
  name : String
  color : String
  size : ℝ
  distance : ℝ
  speed : ℝ
  realDistance : ℝ

/-- The planetData table from ControlPanel.tsx (lines 660-669). -/
def planetData : List PlanetInfo :=
  [ ⟨("mercury"), ("水星"), ("#8C7853"), 0.4, 8, 4.15, 12⟩,
    ⟨("venus"), ("金星"), ("#FFC649"), 0.9, 12, 1.62, 18⟩,
    ⟨("earth"), ("地球"), ("#6B93D6"), 1, 16, 1, 25⟩,
    ⟨("mars"), ("火星"), ("#C1440E"), 0.5, 22, 0.53, 32⟩,
    ⟨("jupiter"), ("木星"), ("#D8CA9D"), 2.5, 35, 0.084, 60⟩,
    ⟨("saturn"), ("土星"), ("#FAD5A5"), 2.1, 45, 0.034, 80⟩,
    ⟨("uranus"), ("天王星"), ("#4FD0E3"), 1.6, 55, 0.012, 100⟩,
    ⟨("neptune"), ("海王星"), ("#4B70DD"), 1.5, 65, 0.006, 120⟩ ]

/-- The numeric and relational fields of one satelliteDatabase entry
(satelliteData.ts); descriptive text fields are omitted. -/
structure SatInfo where
  id : String
  parentPlanet : String
  size : ℝ
  distance : ℝ
  speed : ℝ

/-- The satelliteDatabase table from satelliteData.ts, reduced to the
fields the kinematics uses. -/
def satelliteDatabase : List SatInfo :=
  [ ⟨("moon"), ("earth"), 0.3, 2, 2⟩,
    ⟨("phobos"), ("mars"), 0.08, 0.8, 8⟩,
    ⟨("deimos"), ("mars"), 0.05, 1.2, 4⟩,
    ⟨("io"), ("jupiter"), 0.25, 3.5, 3⟩,
    ⟨("europa"), ("jupiter"), 0.22, 4.2, 2.5⟩,
    ⟨("ganymede"), ("jupiter"), 0.3, 5, 2⟩,
    ⟨("callisto"), ("jupiter"), 0.28, 6.5, 1.5⟩,
    ⟨("titan"), ("saturn"), 0.32, 4.5, 1.8⟩,
    ⟨("enceladus"), ("saturn"), 0.12, 3, 3.5⟩,
    ⟨("miranda"), ("uranus"), 0.08, 2.5, 4⟩,
    ⟨("triton"), ("neptune"), 0.18, 3.5, -2⟩ ]

/-- The ids of all satellites in satelliteData.ts. -/
def satelliteIds : List String :=
  satelliteDatabase.map (fun s => s.id)

/-- The ids of the eight planets in the planetData table. -/
def planetIds : List String :=
  planetData.map (fun p => p.id)

/-! ## Kinematics -/

/-- The orbital angle update shared by Planet (line 1199) and Satellite
(line 1060): newAngle = angle + delta * speed * timeSpeed * 0.1. -/
def orbitAngleStep (angle delta speed timeSpeed : ℝ) : ℝ :=
  angle + delta * speed * timeSpeed * 0.1

/-- The per-planet self-rotation speed table (ControlPanel.tsx lines
1227-1236), defaulting to 0.1 for ids not in the table. -/
def rotationSpeedFor (id : String) : ℝ :=
  if id = ("mercury") then 0.1
  else if id = ("venus") then -0.05
  else if id = ("earth") then 0.2
  else if id = ("mars") then 0.18
  else if id = ("jupiter") then 0.4
  else if id = ("saturn") then 0.35
  else if id = ("uranus") then 0.15
  else if id = ("neptune") then 0.16
  else 0.1

/-- JS Array.prototype.slice(0, e) on a list: a nonnegative end index
takes the first e elements; a negative end index counts from the end of
the array (clamped at zero). -/
def jsSlice0 {α : Type} (l : List α) (e : ℤ) : List α :=
  l.take (if e < 0 then ((l.length : ℤ) + e).toNat else e.toNat)

/-- One trail-recorder update (ControlPanel.tsx line 1218): prepend the
new position, then slice(0, Math.floor(trailLength)). -/
def trailStep (trail : List Vec3) (newPos : Vec3) (trailLength : ℝ) : List Vec3 :=
  jsSlice0 (newPos :: trail) ⌊trailLength⌋

/-- The mutable per-planet animation state: orbital angle (React state),
self-rotation angles of the mesh, the orbit group position, and the
recorded trail. -/
structure PlanetState where
  angle : ℝ
  rotY : ℝ
  rotZ : ℝ
  posX : ℝ
  posZ : ℝ
  trail : List Vec3

/-- One useFrame tick of the Planet component (ControlPanel.tsx lines
1196-1245). When isPlaying is false the callback returns at once and
the state is untouched. Otherwise the orbital angle advances, the
position is rederived from it, the trail is updated unless the trail
type is none, and the self-rotation advances (with the Uranus tilt
special case). -/
def planetFrame (isPlaying : Bool) (delta : ℝ) (planet : PlanetInfo)
    (timeSpeed : ℝ) (trailType : String) (trailLength : ℝ)
    (realScale : Bool) (s : PlanetState) : PlanetState :=
  if !isPlaying then s
  else
    let distance := if realScale then planet.realDistance else planet.distance
    let newAngle := orbitAngleStep s.angle delta planet.speed timeSpeed
    let newX := Real.cos newAngle * distance
    let newZ := Real.sin newAngle * distance
    let newTrail :=
      if trailType ≠ ("none") then trailStep s.trail ⟨newX, 0, newZ⟩ trailLength
      else s.trail
    let newRotY := s.rotY + delta * rotationSpeedFor planet.id * timeSpeed
    let newRotZ := if planet.id = ("uranus") then Real.pi / 2 else s.rotZ
    ⟨newAngle, newRotY, newRotZ, newX, newZ, newTrail⟩

/-- The mutable per-satellite animation state: orbital angle and the
orbit group position. -/
structure SatState where
  angle : ℝ
  posX : ℝ
  posZ : ℝ

/-- One useFrame tick of the Satellite component (ControlPanel.tsx lines
1057-1070). planetPosition is the prop captured at the last committed
render. When isPlaying is false nothing changes. -/
def satelliteFrame (isPlaying : Bool) (delta : ℝ) (sat : SatInfo)
    (timeSpeed : ℝ) (planetPosition : Vec3) (realScale : Bool)
    (s : SatState) : SatState :=
  if !isPlaying then s
  else
    let satelliteDistance := if realScale then sat.distance * 0.3 else sat.distance
    let newAngle := orbitAngleStep s.angle delta sat.speed timeSpeed
    ⟨newAngle,
     planetPosition.x + Real.cos newAngle * satelliteDistance,
     planetPosition.z + Real.sin newAngle * satelliteDistance⟩

/-- The self-rotation advance of the Sun component per tick
(ControlPanel.tsx line 1893): rotation.y += 0.01. The Sun useFrame
callback has no isPlaying guard, so this runs on every tick, also while
playback is disabled. -/
def sunRotationStep (rotY : ℝ) : ℝ :=
  rotY + 0.01

/-- The per-planet self-rotation speed table of the RealisticPlanet
module (src/unnamed/part_003 lines 201-213), defaulting to 0.1; its
content coincides with the table inside the standard Planet useFrame. -/
def getRotationSpeed (planetId : String) : ℝ :=
  if planetId = ("mercury") then 0.1
  else if planetId = ("venus") then -0.05
  else if planetId = ("earth") then 0.2
  else if planetId = ("mars") then 0.18
  else if planetId = ("jupiter") then 0.4
  else if planetId = ("saturn") then 0.35
  else if planetId = ("uranus") then 0.15
  else if planetId = ("neptune") then 0.16
  else 0.1

/-- The planet self-rotation advance of the RealisticPlanet useFrame
callback (src/unnamed/part_003 lines 81-82): rotation.y +=
delta * getRotationSpeed(planetId) * timeSpeed. RealisticPlanet never
receives the isPlaying flag, so when realistic rendering is enabled
(ControlPanel.tsx line 1397 renders a RealisticPlanet instead of the
guarded mesh) this runs on every tick, also while playback is
disabled. -/
def realisticPlanetRotationStep (planetId : String)
    (delta timeSpeed rotY : ℝ) : ℝ :=
  rotY + delta * getRotationSpeed planetId * timeSpeed

/-- Combined state of one planet and one of its satellites plus the
planetPosition prop the satellite was last rendered with: the Planet
component computes currentPosition from the orbit group during render
(lines 1778-1782) and passes it as the Satellite prop (line 1843). -/
structure SystemState where
  planet : PlanetState
  satProp : Vec3
  sat : SatState

/-- One whole frame of the planet-satellite subsystem. The planet
useFrame callback runs, then the satellite useFrame callback runs
reading the planetPosition prop committed by the previous render, and
afterwards the state update from setAngle triggers a re-render which
recaptures the orbit group position into the prop for the next frame. -/
def systemFrame (isPlaying : Bool) (delta : ℝ) (planet : PlanetInfo)
    (sat : SatInfo) (timeSpeed : ℝ) (trailType : String)
    (trailLength : ℝ) (realScale : Bool) (s : SystemState) : SystemState :=
  let planet2 := planetFrame isPlaying delta planet timeSpeed trailType trailLength realScale s.planet
  let sat2 := satelliteFrame isPlaying delta sat timeSpeed s.satProp realScale s.sat
  let satProp2 := if isPlaying then Vec3.mk planet2.posX 0 planet2.posZ else s.satProp
  ⟨planet2, satProp2, sat2⟩

/-! ## Camera zoom controller -/

/-- The cubic ease-out used by animateZoom (ControlPanel.tsx line 2073). -/
def easeOutCubic (p : ℝ) : ℝ :=
  1 - (1 - p) ^ 3

/-- Linear animation progress at a given elapsed wall-clock time (line
2070): min(elapsed / 2000, 1), with duration fixed at 2000 ms. -/
def linProgress (elapsed : ℝ) : ℝ :=
  min (elapsed / 2000) 1

/-- The zoomParams table (ControlPanel.tsx lines 2019-2029), giving the
viewing distance and height per body id; it includes an entry for the
sun even though the sun is not in planetData. -/
def zoomParamsFor (id : String) : Option (ℝ × ℝ) :=
  if id = ("mercury") then some (2.5, 0.5)
  else if id = ("venus") then some (3.5, 0.8)
  else if id = ("earth") then some (4.5, 1.2)
  else if id = ("mars") then some (3.5, 0.8)
  else if id = ("jupiter") then some (10, 2)
  else if id = ("saturn") then some (12, 2.5)
  else if id = ("uranus") then some (7, 1.5)
  else if id = ("neptune") then some (7, 1.5)
  else if id = ("sun") then some (18, 3)
  else none

/-- The per-body viewing direction (ControlPanel.tsx lines 2038-2054):
Saturn, Earth and Jupiter have named overrides; everything else gets
the default oblique angle. All are normalized. -/
def zoomDirection (id : String) : Vec3 :=
  if id = ("saturn") then (Vec3.mk 0.8 0.6 0.8).normalize
  else if id = ("earth") then (Vec3.mk 1 0.4 0.8).normalize
  else if id = ("jupiter") then (Vec3.mk 1 0.2 0.6).normalize
  else (Vec3.mk 1 0.3 0.8).normalize

/-- The closure state of one animateZoom invocation: the camera position
and orbit-controls target captured when the effect ran (lines
2063-2064), the computed target camera position (lines 2056-2060), and
the planet position captured from the planetPositions map when the
effect ran (line 2008) - the lerp destination for the look-at target. -/
structure ZoomAnim where
  startPosition : Vec3
  startTarget : Vec3
  targetCameraPosition : Vec3
  planetPosition : Vec3

/-- Build the animateZoom closure for a found planet (effect body, lines
2014-2066): resolve zoom parameters (falling back to the size-derived
formula of line 2032), pick the viewing direction, and compute the
target camera position from the captured planet position. -/
def mkZoomAnim (planet : PlanetInfo) (realScale : Bool)
    (planetPosition cameraPos controlsTarget : Vec3) : ZoomAnim :=
  let planetSize := if realScale then planet.size * 0.5 else planet.size
  let params := (zoomParamsFor planet.id).getD
    (max (planetSize * 4) 3, max (planetSize * 2) 1.5)
  let direction := zoomDirection planet.id
  { startPosition := cameraPos
    startTarget := controlsTarget
    targetCameraPosition :=
      ⟨planetPosition.x + direction.x * params.1,
       direction.y * params.1 + params.2,
       planetPosition.z + direction.z * params.1⟩
    planetPosition := planetPosition }

/-- The camera position written by one animateZoom step at a given
elapsed time (line 2076): lerp from the captured start position to the
fixed target camera position under the eased progress. -/
def animCameraPos (a : ZoomAnim) (elapsed : ℝ) : Vec3 :=
  Vec3.lerpVectors a.startPosition a.targetCameraPosition
    (easeOutCubic (linProgress elapsed))

/-- The orbit-controls look-at target written by one animateZoom step at
a given elapsed time (line 2079): lerp from the captured start target
to the planet position captured when the effect ran. -/
def animLookAt (a : ZoomAnim) (elapsed : ℝ) : Vec3 :=
  Vec3.lerpVectors a.startTarget a.planetPosition
    (easeOutCubic (linProgress elapsed))

/-- The externally visible state of the CameraZoomController: the camera
position, the orbit-controls target, and the isZooming flag of the
CameraState interface (ControlPanel.tsx lines 362-367 and 1998). -/
structure CameraZoomState where
  cameraPos : Vec3
  controlsTarget : Vec3
  isZooming : Bool

/-- The body of the CameraZoomController effect for a non-null target
id with controls present (ControlPanel.tsx lines 2000-2096): isZooming
is set to true, then the planet is looked up in planetData; if it is
absent, or its live position is missing from the planetPositions map
(console.warn and early return), no animation is created and the camera
and target are untouched. On success the animateZoom closure is built
from the current camera pose. -/
def beginFocus (targetPlanet : String) (positions : List (String × Vec3))
    (realScale : Bool) (s : CameraZoomState) :
    CameraZoomState × Option ZoomAnim :=
  let s1 : CameraZoomState := { s with isZooming := true }
  match planetData.find? (fun p => p.id = targetPlanet) with
  | none => (s1, none)
  | some planet =>
    match positions.lookup targetPlanet with
    | none => (s1, none)
    | some planetPosition =>
      (s1, some (mkZoomAnim planet realScale planetPosition s.cameraPos s.controlsTarget))

/-! ## Galaxy particle generators

The three generators of the Galaxy component. Math.random is modelled
by a draw stream rnd : draw index to real; each loop iteration i
consumes a fixed number of draws in source order, so iteration i reads
draws k*i, k*i+1, ... The JS result object has fields positions,
colors, scales and count. Float32Array construction throws a RangeError
on a negative length, so each generator returns none when
Math.floor(size * 100 and so on) is negative, and otherwise the filled
arrays. -/

/-- The common result record of the galaxy generators. -/
structure GalaxyParticles where
  positions : List ℝ
  colors : List ℝ
  scales : List ℝ
  count : ℕ

/-- The bright center tone of the spiral generator, #FFEB3B as rgb. -/
def spiralCenterColor : Color :=
  ⟨255 / 255, 235 / 255, 59 / 255⟩

/-- The bright center tone of the elliptical generator, #FFF8DC. -/
def ellipticalCenterColor : Color :=
  ⟨255 / 255, 248 / 255, 220 / 255⟩

/-- The red star-forming region tone of the irregular generator,
#FF6B6B. -/
def irregularRedColor : Color :=
  ⟨255 / 255, 107 / 255, 107 / 255⟩

/-- Position, color and scale of spiral particle i (createSpiralGalaxy
loop body, part_005 lines 32-66). Six Math.random draws per iteration:
spiralAngle, radius, x, z, y, scale. -/
def spiralParticle (size : ℝ) (baseColor : Color) (armCount : ℕ)
    (rnd : ℕ → ℝ) (i : ℕ) : Vec3 × Color × ℝ :=
  let r := fun k => rnd (6 * i + k)
  let armIndex := i % armCount
  let armAngle := ((armIndex : ℝ) / (armCount : ℝ)) * Real.pi * 2
  let spiralAngle := armAngle + (r 0 * 0.3 - 0.15)
  let radius := (r 1) ^ ((0.7 : ℝ)) * size
  let spiralOffset := radius * 0.05
  let angle := spiralAngle + spiralOffset
  let x := Real.cos angle * radius * (0.8 + r 2 * 0.4)
  let z := Real.sin angle * radius * (0.8 + r 3 * 0.4)
  let y := (r 4 - 0.5) * size * 0.1
  let distFrac := radius / size
  let finalColor := spiralCenterColor.lerp baseColor distFrac
  (⟨x, y, z⟩, finalColor, r 5 * (2 - distFrac) + 0.5)

/-- Position, color and scale of elliptical particle i
(createEllipticalGalaxy loop body, part_005 lines 82-109). Four draws
per iteration: theta, phi, radius, scale. -/
def ellipticalParticle (size : ℝ) (baseColor : Color) (rnd : ℕ → ℝ)
    (i : ℕ) : Vec3 × Color × ℝ :=
  let r := fun k => rnd (4 * i + k)
  let theta := r 0 * Real.pi * 2
  let phi := Real.arccos (2 * r 1 - 1)
  let radius := (r 2) ^ ((0.5 : ℝ)) * size
  let x := radius * Real.sin phi * Real.cos theta
  let y := radius * Real.sin phi * Real.sin theta * 0.6
  let z := radius * Real.cos phi
  let distFrac := radius / size
  let finalColor := ellipticalCenterColor.lerp baseColor distFrac
  (⟨x, y, z⟩, finalColor, r 3 * (1.5 - distFrac * 0.5) + 0.3)

/-- Position, color and scale of irregular particle i
(createIrregularGalaxy loop body, part_005 lines 125-158). Nine draws
per iteration, in source order: centerCount, centerIndex, centerX,
centerZ, localRadius, angle, the y coordinate, the color split, and the
scale. -/
def irregularParticle (size : ℝ) (baseColor : Color) (rnd : ℕ → ℝ)
    (i : ℕ) : Vec3 × Color × ℝ :=
  let r := fun k => rnd (9 * i + k)
  let centerCount : ℤ := 3 + ⌊r 0 * 3⌋
  let centerIndex : ℤ := ⌊r 1 * (centerCount : ℝ)⌋
  let centerAngle := ((centerIndex : ℝ) / (centerCount : ℝ)) * Real.pi * 2
  let centerOffset := size * 0.3
  let centerX := Real.cos centerAngle * centerOffset * r 2
  let centerZ := Real.sin centerAngle * centerOffset * r 3
  let localRadius := (r 4) ^ ((0.3 : ℝ)) * size * 0.8
  let angle := r 5 * Real.pi * 2
  let x := centerX + Real.cos angle * localRadius
  let y := (r 6 - 0.5) * size * 0.3
  let z := centerZ + Real.sin angle * localRadius
  let regionColor := if r 7 > 0.6 then irregularRedColor else baseColor
  (⟨x, y, z⟩, regionColor, r 8 * 1.5 + 0.5)

/-- Assemble flat positions, colors and scales arrays from a
per-particle function, the way the generator loops write positions of
item size 3, colors of item size 3 and scales of item size 1. -/
def buildParticles (n : ℕ) (particle : ℕ → Vec3 × Color × ℝ) : GalaxyParticles :=
  { positions := (List.range n).flatMap (fun i =>
      [(particle i).1.x, (particle i).1.y, (particle i).1.z])
    colors := (List.range n).flatMap (fun i =>
      [(particle i).2.1.r, (particle i).2.1.g, (particle i).2.1.b])
    scales := (List.range n).map (fun i => (particle i).2.2)
    count := n }

/-- createSpiralGalaxy (part_005 lines 24-68): particleCount is
Math.floor(size * 100); Float32Array allocation fails on a negative
count, otherwise the loop fills exactly count particles. -/
def createSpiralGalaxy (size : ℝ) (color : Color) (armCount : ℕ)
    (rnd : ℕ → ℝ) : Option GalaxyParticles :=
  let particleCount : ℤ := ⌊size * 100⌋
  if particleCount < 0 then none
  else some (buildParticles particleCount.toNat (spiralParticle size color armCount rnd))

/-- createEllipticalGalaxy (part_005 lines 74-112): particleCount is
Math.floor(size * 80). -/
def createEllipticalGalaxy (size : ℝ) (color : Color) (rnd : ℕ → ℝ) :
    Option GalaxyParticles :=
  let particleCount : ℤ := ⌊size * 80⌋
  if particleCount < 0 then none
  else some (buildParticles particleCount.toNat (ellipticalParticle size color rnd))

/-- createIrregularGalaxy (part_005 lines 117-161): particleCount is
Math.floor(size * 60). -/
def createIrregularGalaxy (size : ℝ) (color : Color) (rnd : ℕ → ℝ) :
    Option GalaxyParticles :=
  let particleCount : ℤ := ⌊size * 60⌋
  if particleCount < 0 then none
  else some (buildParticles particleCount.toNat (irregularParticle size color rnd))

/-! ## Shared lemmas -/

/-- Lerp at parameter one lands exactly on the second endpoint. -/
theorem Vec3.lerpVectors_one (a b : Vec3) : Vec3.lerpVectors a b 1 = b := by
  cases b
  simp only [Vec3.lerpVectors, Vec3.mk.injEq]
  refine ⟨by ring, by ring, by ring⟩

/-- Lerp at parameter zero stays at the first endpoint. -/
theorem Vec3.lerpVectors_zero (a b : Vec3) : Vec3.lerpVectors a b 0 = a := by
  cases a
  simp only [Vec3.lerpVectors, Vec3.mk.injEq]
  refine ⟨by ring, by ring, by ring⟩

/-- The distance from a point to itself is zero. -/
theorem Vec3.distanceTo_self (v : Vec3) : Vec3.distanceTo v v = 0 := by
  simp [Vec3.distanceTo]

/-- The eased progress at linear progress zero is zero. -/
theorem easeOutCubic_zero : easeOutCubic 0 = 0 := by
  simp [easeOutCubic]

/-- The eased progress at linear progress one is one. -/
theorem easeOutCubic_one : easeOutCubic 1 = 1 := by
  simp [easeOutCubic]

/-- At elapsed time zero the linear progress is zero. -/
theorem linProgress_zero : linProgress 0 = 0 := by
  simp [linProgress]

/-- Once the elapsed time reaches the 2000 ms duration, the linear
progress is clamped at one. -/
theorem linProgress_done (e : ℝ) (he : 2000 ≤ e) : linProgress e = 1 := by
  have h1 : (1 : ℝ) ≤ e / 2000 := by
    rw [le_div_iff₀ (by norm_num)]
    linarith
  simp [linProgress, min_eq_right h1]

/-! ## Claims -/

/-- C3: for a fixed angular speed and time multiplier, folding the
orbital-angle update over any sequence of frame deltas gives exactly
the same angle as one update with the summed delta: the integration is
linear in the delta, hence frame-rate independent (exactly, in the
real-number model of float arithmetic). -/
theorem orbit_angle_framerate_independent (θ speed m : ℝ) (ds : List ℝ) :
    ds.foldl (fun a δ => orbitAngleStep a δ speed m) θ
      = orbitAngleStep θ ds.sum speed m := by
  induction ds generalizing θ with
  | nil => simp [orbitAngleStep]
  | cons d ds ih =>
    rw [List.foldl_cons, ih, List.sum_cons]
    simp only [orbitAngleStep]
    ring

/-- C2 (counterexample): with orbital angle 0, configured angular speed
1 (the earth row of planetData), time multiplier 1 and frame delta 1,
the claimed update angle + speed * multiplier * delta would be 1, but
one playing tick produces 0.1: the engine multiplies by a fixed extra
0.1 factor. -/
theorem orbit_angle_update_counterexample :
    (planetFrame true 1 ⟨("earth"), ("地球"), ("#6B93D6"), 1, 16, 1, 25⟩ 1
        ("none") 50 false ⟨0, 0, 0, 0, 0, []⟩).angle
      ≠ 0 + 1 * 1 * 1 := by
  simp only [planetFrame, orbitAngleStep, Bool.not_true, Bool.false_eq_true,
    if_false]
  norm_num

/-- C2 (amended): one playing tick advances an orbiting body angle by
speed * timeSpeed * delta * 0.1 - the product of the configured angular
speed, the global time multiplier and the frame delta, scaled by the
engine constant 0.1 - for planets and satellites alike. -/
theorem orbit_angle_update_formula (delta m trailLength : ℝ)
    (p : PlanetInfo) (sat : SatInfo) (trailType : String) (rs : Bool)
    (s : PlanetState) (ss : SatState) (pp : Vec3) :
    (planetFrame true delta p m trailType trailLength rs s).angle
        = s.angle + p.speed * m * delta * 0.1
      ∧ (satelliteFrame true delta sat m pp rs ss).angle
        = ss.angle + sat.speed * m * delta * 0.1 := by
  constructor
  · simp only [planetFrame, orbitAngleStep, Bool.not_true, Bool.false_eq_true,
      if_false]
    ring
  · simp only [satelliteFrame, orbitAngleStep, Bool.not_true, Bool.false_eq_true,
      if_false]
    ring

/-- C6 (counterexample): two useFrame callbacks advance a self-rotation
angle with no isPlaying guard, so a tick taken while playback is
disabled still changes them: the Sun rotation moves from 0 to 0.01
(ControlPanel.tsx line 1893), and with realistic rendering enabled the
earth RealisticPlanet rotation moves from 0 to 1 * 0.2 * 1
(part_003 line 82). So not every body keeps its self-rotation angle
unchanged during a paused tick. -/
theorem paused_rotation_advance_counterexample :
    sunRotationStep 0 ≠ 0
      ∧ realisticPlanetRotationStep ("earth") 1 1 0 ≠ 0 := by
  constructor
  · simp only [sunRotationStep]
    norm_num
  · have hge : getRotationSpeed ("earth") = 0.2 := rfl
    simp only [realisticPlanetRotationStep, hge]
    norm_num

/-- C6 (amended): while playback is disabled a tick leaves every
standard-rendering orbiting body (planet or satellite) completely
unchanged - orbital angle, self-rotation, position and trail - for any
time-speed value, and a later playing tick resumes from exactly the
paused state. The Sun self-rotation, however, advances by 0.01 every
tick regardless of the playback flag, and so does the planet
self-rotation of the unguarded RealisticPlanet path used when realistic
rendering is enabled (as well as galaxy rotation): those callbacks
never consult the flag. -/
theorem paused_tick_identity_and_resume (delta delta2 m trailLength : ℝ)
    (p : PlanetInfo) (sat : SatInfo) (trailType : String) (rs : Bool)
    (s : PlanetState) (ss : SatState) (pp : Vec3)
    (pid : String) (rotY : ℝ)
    (hadv : delta * getRotationSpeed pid * m ≠ 0) :
    planetFrame false delta p m trailType trailLength rs s = s
      ∧ satelliteFrame false delta sat m pp rs ss = ss
      ∧ planetFrame true delta p m trailType trailLength rs
          (planetFrame false delta2 p m trailType trailLength rs s)
        = planetFrame true delta p m trailType trailLength rs s
      ∧ satelliteFrame true delta sat m pp rs
          (satelliteFrame false delta2 sat m pp rs ss)
        = satelliteFrame true delta sat m pp rs ss
      ∧ sunRotationStep rotY ≠ rotY
      ∧ realisticPlanetRotationStep pid delta m rotY ≠ rotY := by
  refine ⟨rfl, rfl, rfl, rfl, ?_, ?_⟩
  · simp only [sunRotationStep, ne_eq, add_right_eq_self]
    norm_num
  · simp only [realisticPlanetRotationStep, ne_eq, add_right_eq_self]
    exact hadv

/-- Witness for paused_tick_identity_and_resume at the earth id with
delta 1, multiplier 1: the paused standard tick is the identity while
the unguarded realistic-path rotation moves. -/
theorem paused_tick_identity_and_resume_witness :
    planetFrame false 1 ⟨("earth"), ("地球"), ("#6B93D6"), 1, 16, 1, 25⟩ 1
        ("none") 50 false ⟨0, 0, 0, 16, 0, []⟩
      = ⟨0, 0, 0, 16, 0, []⟩
      ∧ realisticPlanetRotationStep ("earth") 1 1 0 ≠ 0 := by
  have h := paused_tick_identity_and_resume 1 1 1 50
    ⟨("earth"), ("地球"), ("#6B93D6"), 1, 16, 1, 25⟩
    ⟨("moon"), ("earth"), 0.3, 2, 2⟩ ("none") false
    ⟨0, 0, 0, 16, 0, []⟩ ⟨0, 0, 0⟩ (Vec3.mk 0 0 0) ("earth") 0
    (by
      have hge : getRotationSpeed ("earth") = 0.2 := rfl
      rw [hge]
      norm_num)
  exact ⟨h.1, h.2.2.2.2.2⟩

/-- For a nonnegative end index, the JS slice(0, e) is List.take. -/
theorem jsSlice0_nonneg {α : Type} (l : List α) (e : ℤ) (he : 0 ≤ e) :
    jsSlice0 l e = l.take e.toNat := by
  simp [jsSlice0, not_lt.mpr he]

/-- C5: for every configurable maximum trail length L (the control
panel slider only produces values from 10 to 100, hence the floor of L
is nonnegative), the recorder satisfies: (a) starting from the empty
history, after any number of ticks the history holds at most floor L
positions; (b) each tick prepends the newly computed position and then
truncates, so the history is exactly the take of the new position
consed onto the old history; (c) whenever floor L is at least one the
newest position is at the head, most recent first. -/
theorem trail_bounded_most_recent_first (L : ℝ) (hL : 0 ≤ ⌊L⌋) :
    (∀ ps : List Vec3,
        ((ps.foldl (fun t p => trailStep t p L) []).length : ℤ) ≤ ⌊L⌋)
      ∧ (∀ (t : List Vec3) (p : Vec3),
          trailStep t p L = (p :: t).take (⌊L⌋).toNat)
      ∧ (1 ≤ ⌊L⌋ → ∀ (t : List Vec3) (p : Vec3),
          (trailStep t p L).head? = some p) := by
  have hstep : ∀ (t : List Vec3) (p : Vec3),
      trailStep t p L = (p :: t).take (⌊L⌋).toNat := by
    intro t p
    simp [trailStep, jsSlice0_nonneg _ _ hL]
  refine ⟨?_, hstep, ?_⟩
  · intro ps
    have key : ∀ (qs : List Vec3) (t : List Vec3),
        ((t.length : ℤ) ≤ ⌊L⌋) →
        (((qs.foldl (fun t p => trailStep t p L) t).length : ℤ) ≤ ⌊L⌋) := by
      intro qs
      induction qs with
      | nil => intro t ht; simpa using ht
      | cons q qs ih =>
        intro t ht
        rw [List.foldl_cons]
        refine ih _ ?_
        rw [hstep]
        have h2 : ((q :: t).take (⌊L⌋).toNat).length ≤ (⌊L⌋).toNat :=
          List.length_take_le _ _
        calc (((q :: t).take (⌊L⌋).toNat).length : ℤ)
            ≤ ((⌊L⌋).toNat : ℤ) := by exact_mod_cast h2
          _ = ⌊L⌋ := Int.toNat_of_nonneg hL
    exact key ps [] (by simpa using hL)
  · intro h1 t p
    rw [hstep]
    obtain ⟨n, hn⟩ : ∃ n : ℕ, (⌊L⌋).toNat = n + 1 := by
      refine ⟨(⌊L⌋).toNat - 1, ?_⟩
      have : 1 ≤ (⌊L⌋).toNat := by omega
      omega
    rw [hn, List.take_succ_cons]
    rfl

/-- Witness for trail_bounded_most_recent_first at the default length
50 and a two-tick run. -/
theorem trail_bounded_most_recent_first_witness :
    (((([Vec3.mk 1 0 0, Vec3.mk 2 0 0] :
          List Vec3).foldl (fun t p => trailStep t p 50) []).length : ℤ) ≤ ⌊(50 : ℝ)⌋)
      ∧ (trailStep [] (Vec3.mk 1 0 0) 50
          = ([Vec3.mk 1 0 0] : List Vec3).take ((⌊(50 : ℝ)⌋).toNat))
      ∧ ((trailStep [] (Vec3.mk 1 0 0) 50).head? = some (Vec3.mk 1 0 0)) := by
  have h := trail_bounded_most_recent_first 50 (by norm_num)
  exact ⟨h.1 _, h.2.1 _ _, h.2.2 (by norm_num) _ _⟩

/-- Flat-mapping three entries per element triples the length. -/
theorem length_flatMap_triple {α β : Type} (l : List α) (f g h : α → β) :
    (l.flatMap (fun a => [f a, g a, h a])).length = 3 * l.length := by
  induction l with
  | nil => simp
  | cons a l ih =>
    simp only [List.flatMap_cons, List.length_append, ih, List.length_cons]
    simp
    ring

/-- The builder emits exactly count particles: positions and colors of
item size 3, scales of item size 1. -/
theorem buildParticles_lengths (n : ℕ) (particle : ℕ → Vec3 × Color × ℝ) :
    (buildParticles n particle).positions.length = 3 * (buildParticles n particle).count
      ∧ (buildParticles n particle).colors.length = 3 * (buildParticles n particle).count
      ∧ (buildParticles n particle).scales.length = (buildParticles n particle).count := by
  refine ⟨?_, ?_, ?_⟩
  · simp only [buildParticles]
    rw [length_flatMap_triple, List.length_range]
  · simp only [buildParticles]
    rw [length_flatMap_triple, List.length_range]
  · simp only [buildParticles]
    rw [List.length_map, List.length_range]

/-- C9: every galaxy particle generator that returns a result returns
arrays with positions.length = 3 * count, colors.length = 3 * count and
scales.length = count, where count is the particle count the generator
reports. -/
theorem galaxy_generator_array_lengths (size : ℝ) (c : Color)
    (armCount : ℕ) (rnd : ℕ → ℝ) (g : GalaxyParticles)
    (h : createSpiralGalaxy size c armCount rnd = some g
        ∨ createEllipticalGalaxy size c rnd = some g
        ∨ createIrregularGalaxy size c rnd = some g) :
    g.positions.length = 3 * g.count
      ∧ g.colors.length = 3 * g.count
      ∧ g.scales.length = g.count := by
  rcases h with h | h | h
  · rw [createSpiralGalaxy] at h
    by_cases hc : (⌊size * 100⌋ : ℤ) < 0
    · simp [hc] at h
    · simp only [hc, if_false] at h
      rw [← Option.some_inj.mp h]
      exact buildParticles_lengths _ _
  · rw [createEllipticalGalaxy] at h
    by_cases hc : (⌊size * 80⌋ : ℤ) < 0
    · simp [hc] at h
    · simp only [hc, if_false] at h
      rw [← Option.some_inj.mp h]
      exact buildParticles_lengths _ _
  · rw [createIrregularGalaxy] at h
    by_cases hc : (⌊size * 60⌋ : ℤ) < 0
    · simp [hc] at h
    · simp only [hc, if_false] at h
      rw [← Option.some_inj.mp h]
      exact buildParticles_lengths _ _

/-- Witness for galaxy_generator_array_lengths: a spiral galaxy of size
1 with 4 arms and the constant-zero random stream returns a result with
100 particles and matching array lengths. -/
theorem galaxy_generator_array_lengths_witness :
    (buildParticles (100 : ℕ)
        (spiralParticle 1 ⟨1, 1, 1⟩ 4 (fun _ => 0))).positions.length
      = 3 * (buildParticles (100 : ℕ)
        (spiralParticle 1 ⟨1, 1, 1⟩ 4 (fun _ => 0))).count := by
  have hfloor : (⌊(1 : ℝ) * 100⌋ : ℤ) = 100 := by
    norm_num
  have hsome : createSpiralGalaxy 1 ⟨1, 1, 1⟩ 4 (fun _ => 0)
      = some (buildParticles (100 : ℕ) (spiralParticle 1 ⟨1, 1, 1⟩ 4 (fun _ => 0))) := by
    rw [createSpiralGalaxy]
    simp [hfloor]
  exact (galaxy_generator_array_lengths 1 ⟨1, 1, 1⟩ 4 (fun _ => 0) _
    (Or.inl hsome)).1

/-- C1 (counterexample): begin a focus on earth while its recorded live
position is (16, 0, 0); the animateZoom closure captures that vector as
the fixed lerp destination. If the body then moves (one playing tick
with time multiplier 5 moves the earth to orbital angle 0.5), the
look-at computed when linear progress reaches 1 is still the captured
(16, 0, 0) - its z component is 0 - while the live body z coordinate is
16 * sin 0.5 > 0. The destination is not recomputed per step and the final
look-at is the position captured at focus start, not the live one. -/
theorem focus_lookat_final_counterexample :
    (beginFocus ("earth") [(("earth"), Vec3.mk 16 0 0)] false
          ⟨Vec3.mk 0 50 50, Vec3.mk 0 0 0, false⟩).2
        = some (mkZoomAnim ⟨("earth"), ("地球"), ("#6B93D6"), 1, 16, 1, 25⟩ false
            (Vec3.mk 16 0 0) (Vec3.mk 0 50 50) (Vec3.mk 0 0 0))
      ∧ (animLookAt (mkZoomAnim ⟨("earth"), ("地球"), ("#6B93D6"), 1, 16, 1, 25⟩ false
            (Vec3.mk 16 0 0) (Vec3.mk 0 50 50) (Vec3.mk 0 0 0)) 2000).z
        ≠ (planetFrame true 1 ⟨("earth"), ("地球"), ("#6B93D6"), 1, 16, 1, 25⟩ 5
            ("none") 50 false ⟨0, 0, 0, 16, 0, []⟩).posZ := by
  constructor
  · rfl
  · have hz : (animLookAt (mkZoomAnim ⟨("earth"), ("地球"), ("#6B93D6"), 1, 16, 1, 25⟩ false
        (Vec3.mk 16 0 0) (Vec3.mk 0 50 50) (Vec3.mk 0 0 0)) 2000).z = 0 := by
      rw [animLookAt, linProgress_done 2000 le_rfl, easeOutCubic_one,
        Vec3.lerpVectors_one]
      rfl
    rw [hz]
    have hang : orbitAngleStep 0 1 1 5 = 0.5 := by
      rw [orbitAngleStep]; norm_num
    have hpos : (planetFrame true 1 ⟨("earth"), ("地球"), ("#6B93D6"), 1, 16, 1, 25⟩ 5
        ("none") 50 false ⟨0, 0, 0, 16, 0, []⟩).posZ = Real.sin 0.5 * 16 := by
      simp only [planetFrame, Bool.not_true, Bool.false_eq_true, if_false, hang]
    rw [hpos]
    have hsin : 0 < Real.sin 0.5 :=
      Real.sin_pos_of_pos_of_lt_pi (by norm_num)
        (lt_trans (by norm_num) Real.pi_gt_three)
    intro h
    nlinarith [hsin]

/-- C1 (amended): within one animateZoom animation the interpolation
destination for the look-at target is the body position captured when
the effect ran, and it is not recomputed per step: once linear progress
reaches 1 the computed look-at equals exactly that captured position
(and the camera starts from the captured start position at progress 0).
The destination tracks the live body only when the effect re-runs and
restarts the animation with a freshly captured position. -/
theorem focus_lookat_final_eq_captured (a : ZoomAnim) (e : ℝ)
    (he : 2000 ≤ e) :
    animLookAt a e = a.planetPosition
      ∧ animCameraPos a 0 = a.startPosition
      ∧ animCameraPos a e = a.targetCameraPosition := by
  refine ⟨?_, ?_, ?_⟩
  · rw [animLookAt, linProgress_done e he, easeOutCubic_one, Vec3.lerpVectors_one]
  · rw [animCameraPos, linProgress_zero, easeOutCubic_zero, Vec3.lerpVectors_zero]
  · rw [animCameraPos, linProgress_done e he, easeOutCubic_one, Vec3.lerpVectors_one]

/-- Witness for focus_lookat_final_eq_captured at a concrete animation
and elapsed time 2000. -/
theorem focus_lookat_final_eq_captured_witness :
    animLookAt ⟨Vec3.mk 0 50 50, Vec3.mk 0 0 0, Vec3.mk 20 1 2, Vec3.mk 16 0 0⟩ 2000
        = Vec3.mk 16 0 0
      ∧ animCameraPos ⟨Vec3.mk 0 50 50, Vec3.mk 0 0 0, Vec3.mk 20 1 2, Vec3.mk 16 0 0⟩ 0
        = Vec3.mk 0 50 50 := by
  have h := focus_lookat_final_eq_captured
    ⟨Vec3.mk 0 50 50, Vec3.mk 0 0 0, Vec3.mk 20 1 2, Vec3.mk 16 0 0⟩ 2000 le_rfl
  exact ⟨h.1, h.2.1⟩

/-- C7: re-running the zoom effect mid-flight (a new focus while a
previous animateZoom is at elapsed time e) builds the new animation
with startPosition and startTarget cloned from the current camera pose
(lines 2063-2064), so the first step of the restarted animation (at
elapsed 0, eased progress 0) reproduces the pre-interrupt camera
position and look-at exactly: the camera jump at the restart is 0,
which is at most any nonnegative per-frame travel bound. -/
theorem refocus_restarts_from_current (a : ZoomAnim) (e : ℝ)
    (p : PlanetInfo) (rs : Bool) (livePos : Vec3) (bound : ℝ)
    (hb : 0 ≤ bound) :
    animCameraPos (mkZoomAnim p rs livePos (animCameraPos a e) (animLookAt a e)) 0
        = animCameraPos a e
      ∧ animLookAt (mkZoomAnim p rs livePos (animCameraPos a e) (animLookAt a e)) 0
        = animLookAt a e
      ∧ Vec3.distanceTo
          (animCameraPos (mkZoomAnim p rs livePos (animCameraPos a e) (animLookAt a e)) 0)
          (animCameraPos a e)
        ≤ bound := by
  have h1 : animCameraPos (mkZoomAnim p rs livePos (animCameraPos a e) (animLookAt a e)) 0
      = animCameraPos a e := by
    rw [animCameraPos, linProgress_zero, easeOutCubic_zero, Vec3.lerpVectors_zero]
    rfl
  have h2 : animLookAt (mkZoomAnim p rs livePos (animCameraPos a e) (animLookAt a e)) 0
      = animLookAt a e := by
    rw [animLookAt, linProgress_zero, easeOutCubic_zero, Vec3.lerpVectors_zero]
    rfl
  refine ⟨h1, h2, ?_⟩
  rw [h1, Vec3.distanceTo_self]
  exact hb

/-- Witness for refocus_restarts_from_current: interrupting a concrete
animation at elapsed 500 ms with a refocus on the saturn row keeps the
camera where it is, within the zero bound. -/
theorem refocus_restarts_from_current_witness :
    Vec3.distanceTo
        (animCameraPos
          (mkZoomAnim ⟨("saturn"), ("土星"), ("#FAD5A5"), 2.1, 45, 0.034, 80⟩ false
            (Vec3.mk 45 0 0)
            (animCameraPos ⟨Vec3.mk 0 50 50, Vec3.mk 0 0 0, Vec3.mk 20 1 2, Vec3.mk 16 0 0⟩ 500)
            (animLookAt ⟨Vec3.mk 0 50 50, Vec3.mk 0 0 0, Vec3.mk 20 1 2, Vec3.mk 16 0 0⟩ 500)) 0)
        (animCameraPos ⟨Vec3.mk 0 50 50, Vec3.mk 0 0 0, Vec3.mk 20 1 2, Vec3.mk 16 0 0⟩ 500)
      ≤ 0 :=
  (refocus_restarts_from_current
    ⟨Vec3.mk 0 50 50, Vec3.mk 0 0 0, Vec3.mk 20 1 2, Vec3.mk 16 0 0⟩ 500
    ⟨("saturn"), ("土星"), ("#FAD5A5"), 2.1, 45, 0.034, 80⟩ false
    (Vec3.mk 45 0 0) 0 le_rfl).2.2

/-- C8 (counterexample): beginning a focus on the earth while the
planetPositions map is empty (its live position cannot be resolved this
tick) is not a complete no-op: the effect calls setIsZooming(true)
before the lookups, and the early return leaves the flag set, so the
interpolation state changes from isZooming = false to true. -/
theorem focus_unresolvable_counterexample :
    ((beginFocus ("earth") [] false
        ⟨Vec3.mk 0 50 50, Vec3.mk 0 0 0, false⟩).1).isZooming
      ≠ (⟨Vec3.mk 0 50 50, Vec3.mk 0 0 0, false⟩ : CameraZoomState).isZooming := by
  have h1 : ((beginFocus ("earth") [] false
      ⟨Vec3.mk 0 50 50, Vec3.mk 0 0 0, false⟩).1).isZooming = true := rfl
  rw [h1]
  simp

/-- C8 (amended): beginning a focus on a body id whose live position
cannot be resolved this tick (the id is missing from planetData, or its
position is missing from the planetPositions map) raises no exception
and leaves the camera position and the orbit-controls target unchanged
and starts no animation; however the isZooming flag of the camera zoom
state is unconditionally set to true (and, with the animation never
started, is not reset). -/
theorem focus_unresolvable_no_movement (id : String)
    (positions : List (String × Vec3)) (rs : Bool) (s : CameraZoomState)
    (h : planetData.find? (fun p => p.id = id) = none
        ∨ positions.lookup id = none) :
    (beginFocus id positions rs s).1.cameraPos = s.cameraPos
      ∧ (beginFocus id positions rs s).1.controlsTarget = s.controlsTarget
      ∧ (beginFocus id positions rs s).2 = none
      ∧ (beginFocus id positions rs s).1.isZooming = true := by
  rcases h with h | h
  · simp [beginFocus, h]
  · cases hfind : planetData.find? (fun p => p.id = id) with
    | none => simp [beginFocus, hfind]
    | some planet => simp [beginFocus, hfind, h]

/-- Witness for focus_unresolvable_no_movement: focusing the earth with
an empty position map moves nothing. -/
theorem focus_unresolvable_no_movement_witness :
    (beginFocus ("earth") [] false
        ⟨Vec3.mk 0 50 50, Vec3.mk 0 0 0, false⟩).1.cameraPos
      = Vec3.mk 0 50 50
      ∧ (beginFocus ("earth") [] false
        ⟨Vec3.mk 0 50 50, Vec3.mk 0 0 0, false⟩).2 = none := by
  have h := focus_unresolvable_no_movement ("earth") [] false
    ⟨Vec3.mk 0 50 50, Vec3.mk 0 0 0, false⟩ (Or.inr rfl)
  exact ⟨h.1, h.2.2.1⟩

/-- C10: only ids found in the planetData table can move the camera:
for any id not in the table, beginning a focus leaves the camera
position and orbit-controls target unchanged and creates no animation;
the sun id and every satellite id are not in the table (so clicking
them never moves the camera), even though the zoomParams viewing-offset
table carries a dedicated sun entry of distance 18 and height 3. -/
theorem only_planet_ids_move_camera
    (id : String) (hid : planetData.find? (fun p => p.id = id) = none)
    (positions : List (String × Vec3)) (rs : Bool) (s : CameraZoomState) :
    ((beginFocus id positions rs s).1.cameraPos = s.cameraPos
        ∧ (beginFocus id positions rs s).1.controlsTarget = s.controlsTarget
        ∧ (beginFocus id positions rs s).2 = none)
      ∧ planetData.find? (fun p => p.id = ("sun")) = none
      ∧ (((("sun") :: satelliteIds).all
            (fun b => (planetData.find? (fun p => p.id = b)).isNone)) = true)
      ∧ zoomParamsFor ("sun") = some (18, 3) := by
  refine ⟨?_, rfl, rfl, rfl⟩
  simp [beginFocus, hid]

/-- Witness for only_planet_ids_move_camera at the sun id: selecting
the sun does not move the camera or the controls target. -/
theorem only_planet_ids_move_camera_witness :
    (beginFocus ("sun") [(("sun"), Vec3.mk 0 0 0)] false
        ⟨Vec3.mk 0 50 50, Vec3.mk 0 0 0, false⟩).1.cameraPos
      = Vec3.mk 0 50 50
      ∧ (beginFocus ("sun") [(("sun"), Vec3.mk 0 0 0)] false
        ⟨Vec3.mk 0 50 50, Vec3.mk 0 0 0, false⟩).2 = none := by
  have h := only_planet_ids_move_camera ("sun") rfl
    [(("sun"), Vec3.mk 0 0 0)] false ⟨Vec3.mk 0 50 50, Vec3.mk 0 0 0, false⟩
  exact ⟨h.1.1, h.1.2.2⟩

/-- C4 (counterexample): run two playing frames of the earth-moon
subsystem from the initial state (planet angle 0, time multiplier 10,
delta 1 per frame). In the second frame the satellite reads the
planetPosition prop committed by the render after the first frame, so
its absolute x coordinate is cos(1) * 16 + cos(4) * 2, while the parent
position already updated in that same tick is cos(2) * 16: the claimed
identity with the current-tick parent position fails because
cos 1 differs from cos 2. -/
theorem satellite_stale_parent_counterexample :
    (systemFrame true 1 ⟨("earth"), ("地球"), ("#6B93D6"), 1, 16, 1, 25⟩
        ⟨("moon"), ("earth"), 0.3, 2, 2⟩ 10 ("none") 50 false
        (systemFrame true 1 ⟨("earth"), ("地球"), ("#6B93D6"), 1, 16, 1, 25⟩
          ⟨("moon"), ("earth"), 0.3, 2, 2⟩ 10 ("none") 50 false
          ⟨⟨0, 0, 0, 0, 0, []⟩, Vec3.mk 0 0 0, ⟨0, 0, 0⟩⟩)).sat.posX
      ≠ (systemFrame true 1 ⟨("earth"), ("地球"), ("#6B93D6"), 1, 16, 1, 25⟩
          ⟨("moon"), ("earth"), 0.3, 2, 2⟩ 10 ("none") 50 false
          (systemFrame true 1 ⟨("earth"), ("地球"), ("#6B93D6"), 1, 16, 1, 25⟩
            ⟨("moon"), ("earth"), 0.3, 2, 2⟩ 10 ("none") 50 false
            ⟨⟨0, 0, 0, 0, 0, []⟩, Vec3.mk 0 0 0, ⟨0, 0, 0⟩⟩)).planet.posX
        + Real.cos ((systemFrame true 1 ⟨("earth"), ("地球"), ("#6B93D6"), 1, 16, 1, 25⟩
            ⟨("moon"), ("earth"), 0.3, 2, 2⟩ 10 ("none") 50 false
            (systemFrame true 1 ⟨("earth"), ("地球"), ("#6B93D6"), 1, 16, 1, 25⟩
              ⟨("moon"), ("earth"), 0.3, 2, 2⟩ 10 ("none") 50 false
              ⟨⟨0, 0, 0, 0, 0, []⟩, Vec3.mk 0 0 0, ⟨0, 0, 0⟩⟩)).sat.angle) * 2 := by
  have e1 : (systemFrame true 1 ⟨("earth"), ("地球"), ("#6B93D6"), 1, 16, 1, 25⟩
      ⟨("moon"), ("earth"), 0.3, 2, 2⟩ 10 ("none") 50 false
      (systemFrame true 1 ⟨("earth"), ("地球"), ("#6B93D6"), 1, 16, 1, 25⟩
        ⟨("moon"), ("earth"), 0.3, 2, 2⟩ 10 ("none") 50 false
        ⟨⟨0, 0, 0, 0, 0, []⟩, Vec3.mk 0 0 0, ⟨0, 0, 0⟩⟩)).sat.posX
      = Real.cos 1 * 16 + Real.cos 4 * 2 := by
    norm_num [systemFrame, satelliteFrame, planetFrame, orbitAngleStep]
  have e2 : (systemFrame true 1 ⟨("earth"), ("地球"), ("#6B93D6"), 1, 16, 1, 25⟩
      ⟨("moon"), ("earth"), 0.3, 2, 2⟩ 10 ("none") 50 false
      (systemFrame true 1 ⟨("earth"), ("地球"), ("#6B93D6"), 1, 16, 1, 25⟩
        ⟨("moon"), ("earth"), 0.3, 2, 2⟩ 10 ("none") 50 false
        ⟨⟨0, 0, 0, 0, 0, []⟩, Vec3.mk 0 0 0, ⟨0, 0, 0⟩⟩)).planet.posX
      = Real.cos 2 * 16 := by
    norm_num [systemFrame, satelliteFrame, planetFrame, orbitAngleStep]
  have e3 : (systemFrame true 1 ⟨("earth"), ("地球"), ("#6B93D6"), 1, 16, 1, 25⟩
      ⟨("moon"), ("earth"), 0.3, 2, 2⟩ 10 ("none") 50 false
      (systemFrame true 1 ⟨("earth"), ("地球"), ("#6B93D6"), 1, 16, 1, 25⟩
        ⟨("moon"), ("earth"), 0.3, 2, 2⟩ 10 ("none") 50 false
        ⟨⟨0, 0, 0, 0, 0, []⟩, Vec3.mk 0 0 0, ⟨0, 0, 0⟩⟩)).sat.angle
      = 4 := by
    norm_num [systemFrame, satelliteFrame, planetFrame, orbitAngleStep]
  rw [e1, e2, e3]
  have hcos : Real.cos 2 < Real.cos 1 := by
    have h2pi : (2 : ℝ) ≤ Real.pi :=
      le_of_lt (lt_trans (by norm_num) Real.pi_gt_three)
    exact Real.strictAntiOn_cos
      ⟨by norm_num, le_trans (by norm_num) h2pi⟩
      ⟨by norm_num, h2pi⟩ (by norm_num)
  intro h
  nlinarith [hcos]

/-- C4 (amended): in a playing tick the satellite absolute position is
the parent position captured by the previous committed render (the
planetPosition prop) plus the polar offset from the satellite own angle
and distance; the freshly updated parent position of the same tick only
reaches the prop for the next tick, so the parent position used is one
frame stale whenever the parent moved this tick. -/
theorem satellite_position_from_render_snapshot
    (delta m trailLength : ℝ) (p : PlanetInfo) (sat : SatInfo)
    (trailType : String) (rs : Bool) (s : SystemState) :
    (systemFrame true delta p sat m trailType trailLength rs s).sat.posX
        = s.satProp.x
          + Real.cos ((systemFrame true delta p sat m trailType trailLength rs s).sat.angle)
            * (if rs then sat.distance * 0.3 else sat.distance)
      ∧ (systemFrame true delta p sat m trailType trailLength rs s).sat.posZ
        = s.satProp.z
          + Real.sin ((systemFrame true delta p sat m trailType trailLength rs s).sat.angle)
            * (if rs then sat.distance * 0.3 else sat.distance)
      ∧ (systemFrame true delta p sat m trailType trailLength rs s).satProp
        = Vec3.mk (systemFrame true delta p sat m trailType trailLength rs s).planet.posX 0
            (systemFrame true delta p sat m trailType trailLength rs s).planet.posZ := by
  refine ⟨rfl, rfl, rfl⟩
